import Mathlib

/-!
# Console input-mode accessor: `src/gyp/fix_win.cpp`

A shallow embedding of the three functions of the add-on
(`lastErrorMessage`, `GetMode`, `SetMode`) together with the parts of the host
runtime (JavaScript values, `Number`, thrown errors) and of the operating
system (the Win32 calls) they touch.

* The operating system is a parameter: a record `Win32 σ` of the console calls
  over an arbitrary OS state `σ`.  Every theorem holds for every such record.
  `simOS` is one concrete instance, used to evaluate the code on explicit inputs.
* The process is explicit state (`Proc`): the OS state, the contents of the
  `static wchar_t msg[]` buffer of `lastErrorMessage`, and the list of OS calls
  made so far.
* `DWORD` values are natural numbers reduced modulo `2 ^ 32`.
* A JavaScript number is given by its exact value (`Number`), so no rounding
  is involved: the only conversions in the code are `DWORD → double`, which is
  exact, and `Uint32Value`, which depends on the exact value only.
-/

namespace FixWin

/-! ## Host runtime: values, numbers, errors -/

/-- A JavaScript number (an IEEE double) given by its exact value:
NaN, an infinity, or the finite value `± m · 2 ^ e`. -/
inductive Number where
  | nan
  | inf (neg : Bool)
  | fin (neg : Bool) (m : Nat) (e : Int)
deriving DecidableEq, Repr

/-- The exact value of a number, when it is finite. -/
def Number.toRat : Number → Option ℚ
  | .nan => none
  | .inf _ => none
  | .fin neg m e => some ((if neg then -1 else 1) * (m : ℚ) * (2 : ℚ) ^ e)

/-- The integer part of the magnitude `m · 2 ^ e`. -/
def Number.truncMag (m : Nat) (e : Int) : Nat :=
  if 0 ≤ e then m * 2 ^ e.toNat else m / 2 ^ (-e).toNat

/-- Conversion `Number::Uint32Value()` (ECMAScript ToUint32): NaN and the infinities
give 0; a finite value is truncated toward zero and reduced modulo `2 ^ 32`. -/
def Number.Uint32Value : Number → Nat
  | .nan => 0
  | .inf _ => 0
  | .fin neg m e =>
    if neg then (2 ^ 32 - Number.truncMag m e % 2 ^ 32) % 2 ^ 32
    else Number.truncMag m e % 2 ^ 32

/-- Constructor `Number::New(env, mode)` at a `DWORD` argument: the implicit conversion
`DWORD → double` is exact (every value below `2 ^ 53` is a double), so the number
is `+ mode · 2 ^ 0`. -/
def Number.New (mode : Nat) : Number := .fin false mode 0

/-- A JavaScript value, as far as `IsNumber` can tell values apart. -/
inductive Value where
  | undefined
  | null
  | boolean (b : Bool)
  | number (n : Number)
  | string (s : String)
  | object
deriving DecidableEq, Repr

/-- Test `Value::IsNumber()`. -/
def Value.IsNumber : Value → Bool
  | .number _ => true
  | _ => false

/-- Cast `Value::As<Number>()`, used by the code only after `IsNumber()`. -/
def Value.AsNumber : Value → Number
  | .number n => n
  | _ => .nan

/-- The bytes of an ASCII string literal of the source. -/
def bytes (s : String) : List Nat := s.toList.map Char.toNat

/-- A thrown JavaScript error: its class (`TypeError` or plain `Error`) and the bytes
of the `std::string` message it was built from. -/
structure Exception where
  isTypeError : Bool
  message : List Nat
deriving DecidableEq, Repr

deriving instance DecidableEq for Except

/-- Constructor `Error::New(env, message)`. -/
def Error.New (message : List Nat) : Exception := ⟨false, message⟩

/-- Constructor `TypeError::New(env, message)`. -/
def TypeError.New (message : List Nat) : Exception := ⟨true, message⟩

/-- The literal of line 39. -/
def numberExpectedText : List Nat := bytes "Number expected"

/-- The literal of lines 27 and 45. -/
def stdinText : List Nat := bytes "Unexpected error getting standard input: "

/-- The literal of line 31. -/
def queryText : List Nat := bytes "Unexpected error getting current console input mode: "

/-- The literal of line 48. -/
def setText : List Nat := bytes "Unable to set console input mode: "

/-- The four failure kinds of the specification (its section 7). -/
inductive ErrorKind where
  | InvalidArgument
  | HandleError
  | ModeQueryError
  | ModeSetError
deriving DecidableEq, Repr

/-- The specification's kind of a thrown error, read off the class and the static
description the code throws it with: the code has no other mark of the kind. -/
def kindOf (e : Exception) : Option ErrorKind :=
  if e.isTypeError then
    if e.message = numberExpectedText then some .InvalidArgument else none
  else if stdinText.isPrefixOf e.message then some .HandleError
  else if queryText.isPrefixOf e.message then some .ModeQueryError
  else if setText.isPrefixOf e.message then some .ModeSetError
  else none

/-! ## Operating system -/

/-- A Win32 `HANDLE`, as the integer value of the pointer. -/
abbrev HANDLE := Nat

/-- The value `INVALID_HANDLE_VALUE`, that is `(HANDLE)(LONG_PTR)-1` on a 64-bit target. -/
def INVALID_HANDLE_VALUE : HANDLE := 2 ^ 64 - 1

/-- The constant `MAX_MESSAGE_SIZE` of line 4. -/
def MAX_MESSAGE_SIZE : Nat := 1024

/-- The console calls of the operating system, over an OS state `σ`.

* `GetStdHandle s`: the result of `GetStdHandle(STD_INPUT_HANDLE)` and the next state.
* `GetConsoleMode h s`: `none` when the call returns `FALSE`, `some m` when it
  returns `TRUE` and stores `m` through `lpMode`.
* `SetConsoleMode h m s`: the `BOOL` result and the next state.
* `GetLastError s`: the calling thread's last error code.
* `FormatMessage code nSize s`: `none` when the call returns 0 (the buffer keeps
  what it held), `some t` when it writes the text `t` and a terminating NUL.
* `convFails s`: whether `WideCharToMultiByte` fails (returns 0, writes nothing). -/
structure Win32 (σ : Type) where
  GetStdHandle : σ → HANDLE × σ
  GetConsoleMode : HANDLE → σ → Option Nat × σ
  SetConsoleMode : HANDLE → Nat → σ → Bool × σ
  GetLastError : σ → Nat
  FormatMessage : Nat → Nat → σ → Option (List Nat) × σ
  convFails : σ → Bool

/-- An operating-system call, as recorded in the call log of a process. -/
inductive Call where
  | GetStdHandle
  | GetConsoleMode (h : HANDLE)
  | SetConsoleMode (h : HANDLE) (mode : Nat)
  | GetLastError
  | FormatMessage (code : Nat)
  | WideCharToMultiByte (cbMultiByte : Nat)
deriving DecidableEq, Repr

/-- One UTF-8 encoded code point. -/
def utf8Encode (c : Nat) : List Nat :=
  if c < 0x80 then [c]
  else if c < 0x800 then [0xC0 + c / 0x40, 0x80 + c % 0x40]
  else if c < 0x10000 then [0xE0 + c / 0x1000, 0x80 + c / 0x40 % 0x40, 0x80 + c % 0x40]
  else [0xF0 + c / 0x40000, 0x80 + c / 0x1000 % 0x40, 0x80 + c / 0x40 % 0x40, 0x80 + c % 0x40]

/-- UTF-16 code units to UTF-8 bytes, as `WideCharToMultiByte(CP_UTF8, 0, ...)` does it:
a high surrogate followed by a low one is one code point, any other surrogate
becomes U+FFFD.  `pending` is a high surrogate read and not yet paired. -/
def utf8OfWide (pending : Option Nat) : List Nat → List Nat
  | [] => match pending with
    | none => []
    | some _ => utf8Encode 0xFFFD
  | u :: rest =>
    match pending with
    | none =>
      if 0xD800 ≤ u ∧ u < 0xDC00 then utf8OfWide (some u) rest
      else if 0xDC00 ≤ u ∧ u < 0xE000 then utf8Encode 0xFFFD ++ utf8OfWide none rest
      else utf8Encode u ++ utf8OfWide none rest
    | some hi =>
      if 0xDC00 ≤ u ∧ u < 0xE000 then
        utf8Encode (0x10000 + (hi - 0xD800) * 0x400 + (u - 0xDC00)) ++ utf8OfWide none rest
      else if 0xD800 ≤ u ∧ u < 0xDC00 then utf8Encode 0xFFFD ++ utf8OfWide (some u) rest
      else utf8Encode 0xFFFD ++ utf8Encode u ++ utf8OfWide none rest

/-- The wide characters of a buffer before its first NUL: what a call with
`cchWideChar = -1` reads as the string. -/
def wcstr (buf : List Nat) : List Nat := buf.takeWhile (fun u => u ≠ 0)

/-- Call `WideCharToMultiByte(CP_UTF8, 0, lpWideCharStr, -1, lpMultiByteStr, cbMultiByte,
nullptr, nullptr)`: the returned count and the contents of the output buffer.
With `cchWideChar = -1` the terminating NUL is converted and counted.  With
`cbMultiByte = 0` only the required size is returned; a buffer that is too small
makes the call fail with 0. -/
def WideCharToMultiByte (fails : Bool) (lpWideCharStr lpMultiByteStr : List Nat)
    (cbMultiByte : Nat) : Nat × List Nat :=
  let out := utf8OfWide none (wcstr lpWideCharStr) ++ [0]
  if fails then (0, lpMultiByteStr)
  else if cbMultiByte = 0 then (out.length, lpMultiByteStr)
  else if cbMultiByte < out.length then (0, lpMultiByteStr)
  else (out.length, out ++ lpMultiByteStr.drop out.length)

/-! ## The process -/

/-- The state of the process around a call of the add-on: the OS state, the
`static wchar_t msg[MAX_MESSAGE_SIZE]` of `lastErrorMessage`, and the OS calls
made so far, oldest first. -/
structure Proc (σ : Type) where
  os : σ
  msg : List Nat
  calls : List Call

/-- The buffer `msg` at process start: static storage is zero-initialised. -/
def freshMsg : List Nat := List.replicate MAX_MESSAGE_SIZE 0

/-- The buffer after `FormatMessage`: on success the text and a NUL overwrite the
front of the buffer, on failure the buffer keeps its contents. -/
def msgAfterFormat (msg : List Nat) : Option (List Nat) → List Nat
  | some t => t ++ 0 :: msg.drop (t.length + 1)
  | none => msg

/-- Lines 9-20. -/
def lastErrorMessage {σ : Type} (W : Win32 σ) (p : Proc σ) : List Nat × Proc σ :=
  let code := W.GetLastError p.os
  let fm := W.FormatMessage code MAX_MESSAGE_SIZE p.os
  let msg := msgAfterFormat p.msg fm.1
  let fails := W.convFails fm.2
  let sizeNeeded := (WideCharToMultiByte fails msg [] 0).1
  let str := List.replicate sizeNeeded 0
  let str := (WideCharToMultiByte fails msg str sizeNeeded).2
  (str, { os := fm.2, msg := msg,
          calls := p.calls ++ [.GetLastError, .FormatMessage code,
                               .WideCharToMultiByte 0, .WideCharToMultiByte sizeNeeded] })

/-- Lines 22-34. -/
def GetMode {σ : Type} (W : Win32 σ) (p : Proc σ) : Except Exception Number × Proc σ :=
  let r := W.GetStdHandle p.os
  let h := r.1
  let p1 : Proc σ := { p with os := r.2, calls := p.calls ++ [.GetStdHandle] }
  if h = INVALID_HANDLE_VALUE then
    let e := lastErrorMessage W p1
    (.error (Error.New (stdinText ++ e.1)), e.2)
  else
    let q := W.GetConsoleMode h p1.os
    let p2 : Proc σ := { p1 with os := q.2, calls := p1.calls ++ [.GetConsoleMode h] }
    match q.1 with
    | none =>
      let e := lastErrorMessage W p2
      (.error (Error.New (queryText ++ e.1)), e.2)
    | some mode => (.ok (Number.New (mode % 2 ^ 32)), p2)

/-- Lines 36-49.  `info` is the argument list of the call. -/
def SetMode {σ : Type} (W : Win32 σ) (info : List Value) (p : Proc σ) :
    Except Exception Unit × Proc σ :=
  match info with
  | [v] =>
    if v.IsNumber then
      let newMode := v.AsNumber.Uint32Value
      let r := W.GetStdHandle p.os
      let h := r.1
      let p1 : Proc σ := { p with os := r.2, calls := p.calls ++ [.GetStdHandle] }
      if h = INVALID_HANDLE_VALUE then
        let e := lastErrorMessage W p1
        (.error (Error.New (stdinText ++ e.1)), e.2)
      else
        let q := W.SetConsoleMode h newMode p1.os
        let p2 : Proc σ := { p1 with os := q.2, calls := p1.calls ++ [.SetConsoleMode h newMode] }
        if q.1 then (.ok (), p2)
        else
          let e := lastErrorMessage W p2
          (.error (Error.New (setText ++ e.1)), e.2)
    else (.error (TypeError.New numberExpectedText), p)
  | _ => (.error (TypeError.New numberExpectedText), p)

/-! ## A concrete operating system -/

/-- What the standard input of the simulated process is. -/
inductive StdIn where
  | unavailable
  | console
  | file
deriving DecidableEq, Repr

/-- State of the simulated OS: what standard input is, the mode of the console
input buffer, the thread's last error code, and whether the system message
table can be read (it cannot when the language resources are not loaded). -/
structure Sim where
  stdin : StdIn
  mode : Nat
  lastError : Nat
  hasMessages : Bool
deriving DecidableEq, Repr

/-- The system message table of the simulated OS, as wide characters:
`ERROR_INVALID_HANDLE` (6) and `ERROR_INVALID_PARAMETER` (87). -/
def simMessage (code : Nat) : Option (List Nat) :=
  if code = 6 then some (bytes "The handle is invalid.\r\n")
  else if code = 87 then some (bytes "The parameter is incorrect.\r\n")
  else none

/-- The simulated OS.  Standard input is handle 3 when it is a console and handle 4
when it is redirected from a file; `GetStdHandle` fails when there is no standard
input; the console calls succeed on the console handle only, store and report
the mode verbatim, and fail with `ERROR_INVALID_HANDLE` on any other handle. -/
def simOS : Win32 Sim where
  GetStdHandle s :=
    match s.stdin with
    | .unavailable => (INVALID_HANDLE_VALUE, { s with lastError := 6 })
    | .console => (3, s)
    | .file => (4, s)
  GetConsoleMode h s :=
    if h = 3 ∧ s.stdin = .console then (some s.mode, s)
    else (none, { s with lastError := 6 })
  SetConsoleMode h m s :=
    if h = 3 ∧ s.stdin = .console then (true, { s with mode := m })
    else (false, { s with lastError := 6 })
  GetLastError s := s.lastError
  FormatMessage code _ s := (if s.hasMessages then simMessage code else none, s)
  convFails _ := false

/-- The simulated OS with a failing UTF-8 converter. -/
def simOSConvFails : Win32 Sim := { simOS with convFails := fun _ => true }

/-- A process of the simulated OS that has made no call yet. -/
def freshProc (s : Sim) : Proc Sim := { os := s, msg := freshMsg, calls := [] }

/-- The process right after the call `GetStdHandle(STD_INPUT_HANDLE)` of lines 25 and 42. -/
def afterGetStdHandle {σ : Type} (W : Win32 σ) (p : Proc σ) : Proc σ :=
  { p with os := (W.GetStdHandle p.os).2, calls := p.calls ++ [.GetStdHandle] }

/-- The process right after the call `GetConsoleMode(h, &mode)` of line 30. -/
def afterGetConsoleMode {σ : Type} (W : Win32 σ) (p : Proc σ) : Proc σ :=
  { p with os := (W.GetConsoleMode (W.GetStdHandle p.os).1 (W.GetStdHandle p.os).2).2,
           calls := p.calls ++ [.GetStdHandle, .GetConsoleMode (W.GetStdHandle p.os).1] }

/-- The process right after the call `SetConsoleMode(h, newMode)` of line 47. -/
def afterSetConsoleMode {σ : Type} (W : Win32 σ) (newMode : Nat) (p : Proc σ) : Proc σ :=
  { p with os := (W.SetConsoleMode (W.GetStdHandle p.os).1 newMode (W.GetStdHandle p.os).2).2,
           calls := p.calls ++ [.GetStdHandle, .SetConsoleMode (W.GetStdHandle p.os).1 newMode] }

/-- The OS state the call `SetConsoleMode(h, v)` on the standard input handle leaves,
started in state `s`. -/
def osAfterSet {σ : Type} (W : Win32 σ) (s : σ) (v : Nat) : σ :=
  (W.SetConsoleMode (W.GetStdHandle s).1 v (W.GetStdHandle s).2).2

/-- In state `s` the console of `W` stores mode `v` when it is set and then reports it:
standard input resolves, `SetConsoleMode(h, v)` succeeds, and in the state that
call leaves standard input resolves again and `GetConsoleMode` stores `v`. -/
def StoresAndReports {σ : Type} (W : Win32 σ) (s : σ) (v : Nat) : Prop :=
  (W.GetStdHandle s).1 ≠ INVALID_HANDLE_VALUE
  ∧ (W.SetConsoleMode (W.GetStdHandle s).1 v (W.GetStdHandle s).2).1 = true
  ∧ (W.GetStdHandle (osAfterSet W s v)).1 ≠ INVALID_HANDLE_VALUE
  ∧ (W.GetConsoleMode (W.GetStdHandle (osAfterSet W s v)).1
        (W.GetStdHandle (osAfterSet W s v)).2).1 = some v

/-- The kind of failure of an outcome, `none` for a success. -/
def outcomeKind {α : Type} : Except Exception α → Option ErrorKind
  | .error e => kindOf e
  | .ok _ => none

/-- The OS calls made between two states of the process. -/
def newCalls {σ : Type} (before after : Proc σ) : List Call :=
  after.calls.drop before.calls.length

/-! ## Static descriptions and failure kinds -/

theorem stdinText_eq : stdinText = [85, 110, 101, 120, 112, 101, 99, 116, 101, 100, 32, 101,
    114, 114, 111, 114, 32, 103, 101, 116, 116, 105, 110, 103, 32, 115, 116, 97, 110, 100, 97,
    114, 100, 32, 105, 110, 112, 117, 116, 58, 32] := by decide

theorem queryText_eq : queryText = [85, 110, 101, 120, 112, 101, 99, 116, 101, 100, 32, 101,
    114, 114, 111, 114, 32, 103, 101, 116, 116, 105, 110, 103, 32, 99, 117, 114, 114, 101, 110,
    116, 32, 99, 111, 110, 115, 111, 108, 101, 32, 105, 110, 112, 117, 116, 32, 109, 111, 100,
    101, 58, 32] := by decide

theorem setText_eq : setText = [85, 110, 97, 98, 108, 101, 32, 116, 111, 32, 115, 101, 116, 32,
    99, 111, 110, 115, 111, 108, 101, 32, 105, 110, 112, 117, 116, 32, 109, 111, 100, 101, 58,
    32] := by decide

theorem kindOf_stdin (s : List Nat) : kindOf (Error.New (stdinText ++ s)) = some .HandleError := by
  simp [kindOf, Error.New, stdinText_eq]

theorem kindOf_query (s : List Nat) :
    kindOf (Error.New (queryText ++ s)) = some .ModeQueryError := by
  simp [kindOf, Error.New, stdinText_eq, queryText_eq]

theorem kindOf_set (s : List Nat) : kindOf (Error.New (setText ++ s)) = some .ModeSetError := by
  simp [kindOf, Error.New, stdinText_eq, queryText_eq, setText_eq]

theorem kindOf_numberExpected :
    kindOf (TypeError.New numberExpectedText) = some .InvalidArgument := by
  simp [kindOf, TypeError.New]

/-! ## Number conversions -/

theorem Uint32Value_lt (x : Number) : x.Uint32Value < 2 ^ 32 := by
  cases x with
  | nan => simp [Number.Uint32Value]
  | inf neg => simp [Number.Uint32Value]
  | fin neg m e =>
    simp only [Number.Uint32Value]
    split <;> exact Nat.mod_lt _ (by norm_num)

theorem toRat_New (mode : Nat) : (Number.New mode).toRat = some (mode : ℚ) := by
  simp [Number.New, Number.toRat]

theorem Uint32Value_New (mode : Nat) (h : mode < 2 ^ 32) : (Number.New mode).Uint32Value = mode := by
  simp only [Number.New, Number.Uint32Value, Number.truncMag]
  simpa using Nat.mod_eq_of_lt h

theorem truncMag_of_value (neg : Bool) (m : Nat) (e : Int) (z : Int)
    (hx : (if neg then -1 else 1) * (m : ℚ) * (2 : ℚ) ^ e = (z : ℚ)) :
    (Number.truncMag m e : ℤ) = if neg then -z else z := by
  cases e with
  | ofNat k =>
    have ht : Number.truncMag m (Int.ofNat k) = m * 2 ^ k := by
      simp [Number.truncMag]
    rw [ht, Int.ofNat_eq_coe, zpow_natCast] at *
    cases neg with
    | false =>
      simp only [Bool.false_eq_true, if_false, one_mul] at hx ⊢
      have : ((m * 2 ^ k : ℕ) : ℚ) = ((z : ℤ) : ℚ) := by push_cast; exact hx
      exact_mod_cast this
    | true =>
      simp only [if_true] at hx ⊢
      have : (((m * 2 ^ k : ℕ) : ℤ) : ℚ) = ((-z : ℤ) : ℚ) := by push_cast; linarith
      exact_mod_cast this
  | negSucc k =>
    have ht : Number.truncMag m (Int.negSucc k) = m / 2 ^ (k + 1) := by
      simp [Number.truncMag, Int.negSucc_not_nonneg, Int.neg_negSucc]
    rw [ht]
    rw [zpow_negSucc] at hx
    have hpos : ((2 : ℚ) ^ (k + 1)) ≠ 0 := by positivity
    have hmz : (m : ℤ) = (if neg then -z else z) * 2 ^ (k + 1) := by
      cases neg with
      | false =>
        simp only [Bool.false_eq_true, if_false, one_mul] at hx ⊢
        have : ((m : ℤ) : ℚ) = ((z * 2 ^ (k + 1) : ℤ) : ℚ) := by
          push_cast
          field_simp at hx
          linarith
        exact_mod_cast this
      | true =>
        simp only [if_true] at hx ⊢
        have : ((m : ℤ) : ℚ) = ((-z * 2 ^ (k + 1) : ℤ) : ℚ) := by
          push_cast
          field_simp at hx
          linarith
        exact_mod_cast this
    rw [Int.natCast_div, hmz]
    push_cast
    exact Int.mul_ediv_cancel _ (by positivity)

theorem Uint32Value_of_toRat_int (x : Number) (z : Int) (hx : x.toRat = some (z : ℚ)) :
    (x.Uint32Value : ℤ) = z % 2 ^ 32 := by
  cases x with
  | nan => simp [Number.toRat] at hx
  | inf neg => simp [Number.toRat] at hx
  | fin neg m e =>
    simp only [Number.toRat, Option.some.injEq] at hx
    have ht := truncMag_of_value neg m e z hx
    simp only [Number.Uint32Value]
    cases neg with
    | false =>
      simp only [Bool.false_eq_true, if_false] at ht ⊢
      omega
    | true =>
      simp only [if_true] at ht ⊢
      omega
theorem Uint32Value_of_toRat (x : Number) (n : Nat) (hn : n < 2 ^ 32)
    (hx : x.toRat = some (n : ℚ)) : x.Uint32Value = n := by
  have h := Uint32Value_of_toRat_int x (n : ℤ) (by rw [hx]; simp)
  omega

theorem Uint32Value_of_toRat_wrapped (x : Number) (n : Nat) (hn : n < 2 ^ 32)
    (hx : x.toRat = some ((n : ℚ) - 2 ^ 32)) : x.Uint32Value = n := by
  have h := Uint32Value_of_toRat_int x ((n : ℤ) - 2 ^ 32) (by rw [hx]; push_cast; rfl)
  omega

/-! ## The string `lastErrorMessage` returns -/

theorem wcstr_append_nul (m rest : List Nat) (hm : ∀ u ∈ m, u ≠ 0) :
    wcstr (m ++ 0 :: rest) = m := by
  induction m with
  | nil => simp [wcstr]
  | cons a t ih =>
    have ha : a ≠ 0 := hm a (by simp)
    have ht : ∀ u ∈ t, u ≠ 0 := fun u hu => hm u (by simp [hu])
    have := ih ht
    simp only [wcstr] at this ⊢
    simpa [List.takeWhile, ha] using this

theorem WideCharToMultiByte_size (fails : Bool) (w : List Nat) :
    (WideCharToMultiByte fails w [] 0).1
      = if fails then 0 else (utf8OfWide none (wcstr w)).length + 1 := by
  cases fails <;> simp [WideCharToMultiByte]

theorem lastErrorMessage_str {σ : Type} (W : Win32 σ) (p : Proc σ) :
    (lastErrorMessage W p).1
      = if W.convFails (W.FormatMessage (W.GetLastError p.os) MAX_MESSAGE_SIZE p.os).2 then []
        else utf8OfWide none (wcstr (msgAfterFormat p.msg
              (W.FormatMessage (W.GetLastError p.os) MAX_MESSAGE_SIZE p.os).1)) ++ [0] := by
  simp only [lastErrorMessage, WideCharToMultiByte]
  by_cases hf : W.convFails (W.FormatMessage (W.GetLastError p.os) MAX_MESSAGE_SIZE p.os).2
  · simp [hf]
  · simp [hf]

/-! ## The three paths of `GetMode` and of `SetMode` -/

theorem lastErrorMessage_calls {σ : Type} (W : Win32 σ) (p : Proc σ) :
    (lastErrorMessage W p).2.calls = p.calls ++
      [.GetLastError, .FormatMessage (W.GetLastError p.os), .WideCharToMultiByte 0,
       .WideCharToMultiByte (lastErrorMessage W p).1.length] := by
  simp only [lastErrorMessage, WideCharToMultiByte]
  by_cases hf : W.convFails (W.FormatMessage (W.GetLastError p.os) MAX_MESSAGE_SIZE p.os).2
  · simp [hf]
  · simp [hf]

theorem GetMode_invalid {σ : Type} (W : Win32 σ) (p : Proc σ)
    (h : (W.GetStdHandle p.os).1 = INVALID_HANDLE_VALUE) :
    GetMode W p = (.error (Error.New (stdinText ++ (lastErrorMessage W (afterGetStdHandle W p)).1)),
                   (lastErrorMessage W (afterGetStdHandle W p)).2) := by
  simp [GetMode, h, afterGetStdHandle]

theorem GetMode_queryFails {σ : Type} (W : Win32 σ) (p : Proc σ)
    (h : (W.GetStdHandle p.os).1 ≠ INVALID_HANDLE_VALUE)
    (hq : (W.GetConsoleMode (W.GetStdHandle p.os).1 (W.GetStdHandle p.os).2).1 = none) :
    GetMode W p
      = (.error (Error.New (queryText ++ (lastErrorMessage W (afterGetConsoleMode W p)).1)),
         (lastErrorMessage W (afterGetConsoleMode W p)).2) := by
  simp [GetMode, h, hq, afterGetConsoleMode]

theorem GetMode_ok {σ : Type} (W : Win32 σ) (p : Proc σ) (mode : Nat)
    (h : (W.GetStdHandle p.os).1 ≠ INVALID_HANDLE_VALUE)
    (hq : (W.GetConsoleMode (W.GetStdHandle p.os).1 (W.GetStdHandle p.os).2).1 = some mode) :
    GetMode W p = (.ok (Number.New (mode % 2 ^ 32)), afterGetConsoleMode W p) := by
  simp [GetMode, h, hq, afterGetConsoleMode]

theorem SetMode_invalid {σ : Type} (W : Win32 σ) (x : Number) (p : Proc σ)
    (h : (W.GetStdHandle p.os).1 = INVALID_HANDLE_VALUE) :
    SetMode W [.number x] p
      = (.error (Error.New (stdinText ++ (lastErrorMessage W (afterGetStdHandle W p)).1)),
         (lastErrorMessage W (afterGetStdHandle W p)).2) := by
  simp [SetMode, Value.IsNumber, h, afterGetStdHandle]

theorem SetMode_setFails {σ : Type} (W : Win32 σ) (x : Number) (p : Proc σ)
    (h : (W.GetStdHandle p.os).1 ≠ INVALID_HANDLE_VALUE)
    (hq : (W.SetConsoleMode (W.GetStdHandle p.os).1 x.Uint32Value (W.GetStdHandle p.os).2).1
            = false) :
    SetMode W [.number x] p
      = (.error (Error.New
            (setText ++ (lastErrorMessage W (afterSetConsoleMode W x.Uint32Value p)).1)),
         (lastErrorMessage W (afterSetConsoleMode W x.Uint32Value p)).2) := by
  simp [SetMode, Value.IsNumber, Value.AsNumber, h, hq, afterSetConsoleMode]

theorem SetMode_ok {σ : Type} (W : Win32 σ) (x : Number) (p : Proc σ)
    (h : (W.GetStdHandle p.os).1 ≠ INVALID_HANDLE_VALUE)
    (hq : (W.SetConsoleMode (W.GetStdHandle p.os).1 x.Uint32Value (W.GetStdHandle p.os).2).1
            = true) :
    SetMode W [.number x] p = (.ok (), afterSetConsoleMode W x.Uint32Value p) := by
  simp [SetMode, Value.IsNumber, Value.AsNumber, h, hq, afterSetConsoleMode]

theorem SetMode_first_calls {σ : Type} (W : Win32 σ) (x : Number) (p : Proc σ)
    (h : (W.GetStdHandle p.os).1 ≠ INVALID_HANDLE_VALUE) :
    (newCalls p (SetMode W [.number x] p).2).take 2
      = [.GetStdHandle, .SetConsoleMode (W.GetStdHandle p.os).1 x.Uint32Value] := by
  cases hq : (W.SetConsoleMode (W.GetStdHandle p.os).1 x.Uint32Value
      (W.GetStdHandle p.os).2).1 with
  | false =>
    rw [SetMode_setFails W x p h hq]
    simp [newCalls, lastErrorMessage_calls, afterSetConsoleMode]
  | true =>
    rw [SetMode_ok W x p h hq]
    simp [newCalls, afterSetConsoleMode]

theorem set_then_get {σ : Type} (W : Win32 σ) (p : Proc σ) (x : Number)
    (hos : StoresAndReports W p.os x.Uint32Value) :
    SetMode W [.number x] p = (.ok (), afterSetConsoleMode W x.Uint32Value p)
    ∧ (GetMode W (SetMode W [.number x] p).2).1 = .ok (Number.New x.Uint32Value) := by
  obtain ⟨h1, h2, h3, h4⟩ := hos
  have hs := SetMode_ok W x p h1 h2
  refine ⟨hs, ?_⟩
  rw [hs]
  have hos : (afterSetConsoleMode W x.Uint32Value p).os = osAfterSet W p.os x.Uint32Value := rfl
  have hg := GetMode_ok W (afterSetConsoleMode W x.Uint32Value p) x.Uint32Value
    (by rw [hos]; exact h3) (by rw [hos]; exact h4)
  rw [hg, Nat.mod_eq_of_lt (Uint32Value_lt x)]

theorem testBit_clear_bit1 (b : Nat) (hb : b < 2 ^ 32) :
    (b &&& 0xFFFFFFFD) < 2 ^ 32
    ∧ (b &&& 0xFFFFFFFD).testBit 1 = false
    ∧ ∀ i, i ≠ 1 → (b &&& 0xFFFFFFFD).testBit i = b.testBit i := by
  refine ⟨lt_of_le_of_lt Nat.and_le_left hb, ?_, ?_⟩
  · rw [Nat.testBit_and]
    have : Nat.testBit 0xFFFFFFFD 1 = false := by decide
    simp [this]
  · intro i hi
    rw [Nat.testBit_and]
    by_cases h32 : i < 32
    · have : Nat.testBit 0xFFFFFFFD i = true := by
        interval_cases i <;> first | decide | exact absurd rfl hi
      simp [this]
    · have : b.testBit i = false :=
        Nat.testBit_lt_two_pow (lt_of_lt_of_le hb (Nat.pow_le_pow_right (by norm_num) (by omega)))
      simp [this]

theorem message_New (m : List Nat) : (Error.New m).message = m := rfl

theorem stdinText_ne_nil : stdinText ≠ [] := by decide

theorem queryText_ne_nil : queryText ≠ [] := by decide

theorem setText_ne_nil : setText ≠ [] := by decide

theorem stdinText_append_ne_nil (s : List Nat) : stdinText ++ s ≠ [] := by
  simp [stdinText_eq]

theorem queryText_append_ne_nil (s : List Nat) : queryText ++ s ≠ [] := by
  simp [queryText_eq]

theorem setText_append_ne_nil (s : List Nat) : setText ++ s ≠ [] := by
  simp [setText_eq]

/-! ## Argument validation -/

/-- C1: an argument list of `SetMode` with zero arguments, with more than one, or with
one argument that is not a number is refused with a `TypeError` whose message is
"Number expected" (the kind `InvalidArgument`), and the process is left exactly as
it was: no OS call is logged (no `GetStdHandle`, no `SetConsoleMode`) and the OS
state, with it the console mode, is unchanged. -/
theorem C1_invalid_arguments {σ : Type} (W : Win32 σ) (info : List Value) (p : Proc σ)
    (h : info.length = 0 ∨ 1 < info.length ∨ ∃ v, info = [v] ∧ v.IsNumber = false) :
    SetMode W info p = (.error (TypeError.New (bytes "Number expected")), p)
    ∧ outcomeKind (SetMode W info p).1 = some .InvalidArgument
    ∧ newCalls p (SetMode W info p).2 = []
    ∧ (SetMode W info p).2.os = p.os := by
  have key : SetMode W info p = (.error (TypeError.New numberExpectedText), p) := by
    rcases h with h | h | ⟨v, rfl, hv⟩
    · cases info with
      | nil => rfl
      | cons a t => simp at h
    · match info, h with
      | [], h => simp at h
      | [_], h => simp at h
      | _ :: _ :: _, _ => rfl
    · simp [SetMode, hv]
  rw [key]
  refine ⟨rfl, kindOf_numberExpected, ?_, rfl⟩
  simp [newCalls]

/-- C1 at `SetMode()`, `SetMode(1, 2)` and `SetMode("x")`, on a console of the simulated OS. -/
theorem C1_invalid_arguments_witness :
    (SetMode simOS [] (freshProc ⟨.console, 7, 0, true⟩)
        = (.error (TypeError.New (bytes "Number expected")), freshProc ⟨.console, 7, 0, true⟩))
    ∧ (SetMode simOS [.number (Number.New 1), .number (Number.New 2)]
          (freshProc ⟨.console, 7, 0, true⟩)
        = (.error (TypeError.New (bytes "Number expected")), freshProc ⟨.console, 7, 0, true⟩))
    ∧ (SetMode simOS [.string "x"] (freshProc ⟨.console, 7, 0, true⟩)
        = (.error (TypeError.New (bytes "Number expected")), freshProc ⟨.console, 7, 0, true⟩)) :=
  ⟨(C1_invalid_arguments simOS [] _ (Or.inl rfl)).1,
   (C1_invalid_arguments simOS [.number (Number.New 1), .number (Number.New 2)] _
      (Or.inr (Or.inl (by decide)))).1,
   (C1_invalid_arguments simOS [.string "x"] _ (Or.inr (Or.inr ⟨_, rfl, rfl⟩))).1⟩

/-! ## Outcomes of `GetMode` -/

/-- C4: `GetMode` fails with `HandleError` exactly when `GetStdHandle` returns
`INVALID_HANDLE_VALUE`; otherwise it fails with `ModeQueryError` exactly when
`GetConsoleMode` on that handle fails; otherwise it succeeds with the number of the
flags the OS stored in the `DWORD` (the flags themselves when they fit 32 bits).
`GetStdHandle` is the first call made; on a failed handle no `GetConsoleMode` call is
made at all, on a resolved handle it is the second call and is made on that handle. -/
theorem C4_GetMode_outcomes {σ : Type} (W : Win32 σ) (p : Proc σ) :
    (outcomeKind (GetMode W p).1 = some .HandleError
        ↔ (W.GetStdHandle p.os).1 = INVALID_HANDLE_VALUE)
    ∧ ((W.GetStdHandle p.os).1 ≠ INVALID_HANDLE_VALUE →
        (outcomeKind (GetMode W p).1 = some .ModeQueryError
          ↔ (W.GetConsoleMode (W.GetStdHandle p.os).1 (W.GetStdHandle p.os).2).1 = none))
    ∧ ((W.GetStdHandle p.os).1 ≠ INVALID_HANDLE_VALUE →
        ∀ mode, (W.GetConsoleMode (W.GetStdHandle p.os).1 (W.GetStdHandle p.os).2).1 = some mode →
          (GetMode W p).1 = .ok (Number.New (mode % 2 ^ 32))
          ∧ (mode < 2 ^ 32 → (GetMode W p).1 = .ok (Number.New mode)))
    ∧ (newCalls p (GetMode W p).2).head? = some .GetStdHandle
    ∧ ((W.GetStdHandle p.os).1 = INVALID_HANDLE_VALUE →
        ∀ h, Call.GetConsoleMode h ∉ newCalls p (GetMode W p).2)
    ∧ ((W.GetStdHandle p.os).1 ≠ INVALID_HANDLE_VALUE →
        (newCalls p (GetMode W p).2).take 2
          = [.GetStdHandle, .GetConsoleMode (W.GetStdHandle p.os).1]) := by
  by_cases h : (W.GetStdHandle p.os).1 = INVALID_HANDLE_VALUE
  · rw [GetMode_invalid W p h]
    simp [outcomeKind, kindOf_stdin, h, newCalls, lastErrorMessage_calls, afterGetStdHandle]
  · cases hq : (W.GetConsoleMode (W.GetStdHandle p.os).1 (W.GetStdHandle p.os).2).1 with
    | none =>
      rw [GetMode_queryFails W p h hq]
      simp [outcomeKind, kindOf_query, h, newCalls, lastErrorMessage_calls, afterGetConsoleMode]
    | some mode =>
      rw [GetMode_ok W p mode h hq]
      simp [outcomeKind, h, newCalls, afterGetConsoleMode]
      intro hm
      rw [Nat.mod_eq_of_lt hm]

/-- C4 on the simulated OS: no standard input, standard input redirected from a file,
and a console in mode 7. -/
theorem C4_GetMode_outcomes_witness :
    outcomeKind (GetMode simOS (freshProc ⟨.unavailable, 7, 0, true⟩)).1 = some .HandleError
    ∧ outcomeKind (GetMode simOS (freshProc ⟨.file, 7, 0, true⟩)).1 = some .ModeQueryError
    ∧ (GetMode simOS (freshProc ⟨.console, 7, 0, true⟩)).1 = .ok (Number.New 7) :=
  ⟨(C4_GetMode_outcomes simOS (freshProc ⟨.unavailable, 7, 0, true⟩)).1.2 (by decide),
   ((C4_GetMode_outcomes simOS (freshProc ⟨.file, 7, 0, true⟩)).2.1 (by decide)).2 (by decide),
   ((C4_GetMode_outcomes simOS (freshProc ⟨.console, 7, 0, true⟩)).2.2.1 (by decide) 7
      (by decide)).2 (by decide)⟩

/-! ## Outcomes of `SetMode` -/

/-- C5: for one numeric argument `x`, `SetMode` computes the 32-bit value
`x.Uint32Value` (below `2 ^ 32`, the residue of `x` modulo `2 ^ 32` when `x` is an
integer, and so `x` itself when `x` is an integer in `[0, 2 ^ 32)`).  If `GetStdHandle` returns `INVALID_HANDLE_VALUE` it fails with
`HandleError` and makes no `SetConsoleMode` call.  Otherwise its second OS call is
`SetConsoleMode` on that handle with exactly this value; if that call fails,
`SetMode` fails with `ModeSetError`; if it succeeds, `SetMode` returns no value and
the OS is left in the state that call produced. -/
theorem C5_SetMode_numeric {σ : Type} (W : Win32 σ) (x : Number) (p : Proc σ) :
    x.Uint32Value < 2 ^ 32
    ∧ (∀ z : Int, x.toRat = some (z : ℚ) → (x.Uint32Value : ℤ) = z % 2 ^ 32)
    ∧ (∀ n : Nat, n < 2 ^ 32 → x.toRat = some (n : ℚ) → x.Uint32Value = n)
    ∧ ((W.GetStdHandle p.os).1 = INVALID_HANDLE_VALUE →
        outcomeKind (SetMode W [.number x] p).1 = some .HandleError
        ∧ ∀ h v, Call.SetConsoleMode h v ∉ newCalls p (SetMode W [.number x] p).2)
    ∧ ((W.GetStdHandle p.os).1 ≠ INVALID_HANDLE_VALUE →
        (newCalls p (SetMode W [.number x] p).2).take 2
          = [.GetStdHandle, .SetConsoleMode (W.GetStdHandle p.os).1 x.Uint32Value]
        ∧ ((W.SetConsoleMode (W.GetStdHandle p.os).1 x.Uint32Value (W.GetStdHandle p.os).2).1
              = false →
            outcomeKind (SetMode W [.number x] p).1 = some .ModeSetError)
        ∧ ((W.SetConsoleMode (W.GetStdHandle p.os).1 x.Uint32Value (W.GetStdHandle p.os).2).1
              = true →
            (SetMode W [.number x] p).1 = .ok ()
            ∧ (SetMode W [.number x] p).2.os = osAfterSet W p.os x.Uint32Value
            ∧ newCalls p (SetMode W [.number x] p).2
                = [.GetStdHandle, .SetConsoleMode (W.GetStdHandle p.os).1 x.Uint32Value])) := by
  refine ⟨Uint32Value_lt x, fun z hz => Uint32Value_of_toRat_int x z hz,
    fun n hn hx => Uint32Value_of_toRat x n hn hx, ?_, ?_⟩
  · intro h
    rw [SetMode_invalid W x p h]
    simp [outcomeKind, kindOf_stdin, newCalls, lastErrorMessage_calls, afterGetStdHandle]
  · intro h
    refine ⟨SetMode_first_calls W x p h, ?_, ?_⟩
    · intro hq
      rw [SetMode_setFails W x p h hq]
      simp [outcomeKind, kindOf_set]
    · intro hq
      rw [SetMode_ok W x p h hq]
      simp [newCalls, afterSetConsoleMode, osAfterSet]

/-- C5 on the simulated OS: the argument `2 ^ 32 + 5` is coerced to 5; with no standard
input the call fails with `HandleError`, on a redirected standard input with
`ModeSetError`, and on a console it succeeds and leaves mode 5. -/
theorem C5_SetMode_numeric_witness :
    (Number.fin false (2 ^ 32 + 5) 0).Uint32Value = 5
    ∧ outcomeKind (SetMode simOS [.number (.fin false (2 ^ 32 + 5) 0)]
        (freshProc ⟨.unavailable, 7, 0, true⟩)).1 = some .HandleError
    ∧ outcomeKind (SetMode simOS [.number (.fin false (2 ^ 32 + 5) 0)]
        (freshProc ⟨.file, 7, 0, true⟩)).1 = some .ModeSetError
    ∧ (SetMode simOS [.number (.fin false (2 ^ 32 + 5) 0)]
        (freshProc ⟨.console, 7, 0, true⟩)).2.os = ⟨.console, 5, 0, true⟩ :=
  ⟨by decide,
   ((C5_SetMode_numeric simOS (.fin false (2 ^ 32 + 5) 0)
      (freshProc ⟨.unavailable, 7, 0, true⟩)).2.2.2.1 (by decide)).1,
   ((C5_SetMode_numeric simOS (.fin false (2 ^ 32 + 5) 0)
      (freshProc ⟨.file, 7, 0, true⟩)).2.2.2.2 (by decide)).2.1 (by decide),
   (((C5_SetMode_numeric simOS (.fin false (2 ^ 32 + 5) 0)
      (freshProc ⟨.console, 7, 0, true⟩)).2.2.2.2 (by decide)).2.2 (by decide)).2.1⟩

/-! ## Numeric result of `GetMode` -/

/-- C6: when the OS reports a 32-bit mode, the number `GetMode` returns has exactly that
value, as the non-negative number `+ mode · 2 ^ 0`: bit 31 is not read as a sign
and nothing is cut off. -/
theorem C6_unsigned_result {σ : Type} (W : Win32 σ) (p : Proc σ) (mode : Nat)
    (hm : mode < 2 ^ 32)
    (h : (W.GetStdHandle p.os).1 ≠ INVALID_HANDLE_VALUE)
    (hq : (W.GetConsoleMode (W.GetStdHandle p.os).1 (W.GetStdHandle p.os).2).1 = some mode) :
    ∃ x, (GetMode W p).1 = .ok x ∧ x = .fin false mode 0 ∧ x.toRat = some (mode : ℚ)
      ∧ x.Uint32Value = mode := by
  refine ⟨Number.New mode, ?_, rfl, toRat_New mode, Uint32Value_New mode hm⟩
  rw [GetMode_ok W p mode h hq, Nat.mod_eq_of_lt hm]

/-- C6 at the modes `0x80000000` and `0xFFFFFFFF` of a console of the simulated OS. -/
theorem C6_unsigned_result_witness :
    (∃ x, (GetMode simOS (freshProc ⟨.console, 0x80000000, 0, true⟩)).1 = .ok x
      ∧ x = .fin false 0x80000000 0 ∧ x.toRat = some ((0x80000000 : ℕ) : ℚ)
      ∧ x.Uint32Value = 0x80000000)
    ∧ (∃ x, (GetMode simOS (freshProc ⟨.console, 0xFFFFFFFF, 0, true⟩)).1 = .ok x
      ∧ x = .fin false 0xFFFFFFFF 0 ∧ x.toRat = some ((0xFFFFFFFF : ℕ) : ℚ)
      ∧ x.Uint32Value = 0xFFFFFFFF) :=
  ⟨C6_unsigned_result simOS (freshProc ⟨.console, 0x80000000, 0, true⟩) 0x80000000
      (by decide) (by decide) (by decide),
   C6_unsigned_result simOS (freshProc ⟨.console, 0xFFFFFFFF, 0, true⟩) 0xFFFFFFFF
      (by decide) (by decide) (by decide)⟩

/-! ## Round trips -/

/-- C2: let `v` be a 32-bit value and `x` a number whose value is `v`.  On a console that
stores `v` when it is set and then reports it, `SetMode(x)` succeeds and the
`GetMode()` that follows returns the number of value exactly `v`.  In particular,
for a 32-bit `b`, after `SetMode(b & ~0x0002)` the value `GetMode()` returns has bit
`0x0002` clear and every other bit as in `b`; here the argument is a number whose
value is `b & ~0x0002` read as an unsigned or as a signed 32-bit integer (the
JavaScript operator gives the signed one). -/
theorem C2_set_then_get {σ : Type} (W : Win32 σ) (p : Proc σ) :
    (∀ (v : Nat) (x : Number), v < 2 ^ 32 → x.toRat = some (v : ℚ) →
      StoresAndReports W p.os v →
        (SetMode W [.number x] p).1 = .ok ()
        ∧ (GetMode W (SetMode W [.number x] p).2).1 = .ok (Number.New v)
        ∧ (Number.New v).toRat = some (v : ℚ))
    ∧ (∀ (b : Nat) (x : Number), b < 2 ^ 32 →
        (x.toRat = some ((b &&& 0xFFFFFFFD : ℕ) : ℚ)
          ∨ x.toRat = some (((b &&& 0xFFFFFFFD : ℕ) : ℚ) - 2 ^ 32)) →
        StoresAndReports W p.os (b &&& 0xFFFFFFFD) →
        (SetMode W [.number x] p).1 = .ok ()
        ∧ ∃ r, (GetMode W (SetMode W [.number x] p).2).1 = .ok (Number.New r)
            ∧ r.testBit 1 = false ∧ ∀ i, i ≠ 1 → r.testBit i = b.testBit i) := by
  constructor
  · intro v x hv hx hos
    have hu := Uint32Value_of_toRat x v hv hx
    rw [← hu] at hos
    have hsg := set_then_get W p x hos
    rw [hu] at hsg
    exact ⟨by rw [hsg.1], hsg.2, toRat_New v⟩
  · intro b x hb hx hos
    obtain ⟨hlt, hbit, hrest⟩ := testBit_clear_bit1 b hb
    have hu : x.Uint32Value = b &&& 0xFFFFFFFD := by
      rcases hx with hx | hx
      · exact Uint32Value_of_toRat x _ hlt hx
      · exact Uint32Value_of_toRat_wrapped x _ hlt hx
    rw [← hu] at hos
    have hsg := set_then_get W p x hos
    rw [hu] at hsg
    exact ⟨by rw [hsg.1], b &&& 0xFFFFFFFD, hsg.2, hbit, hrest⟩

/-- C2 on a console of the simulated OS in mode 7: `SetMode(0x80000001)` then `GetMode()`,
and `SetMode(7 & ~0x0002)` then `GetMode()`. -/
theorem C2_set_then_get_witness :
    ((SetMode simOS [.number (Number.New 0x80000001)] (freshProc ⟨.console, 7, 0, true⟩)).1
        = .ok ()
      ∧ (GetMode simOS (SetMode simOS [.number (Number.New 0x80000001)]
          (freshProc ⟨.console, 7, 0, true⟩)).2).1 = .ok (Number.New 0x80000001)
      ∧ (Number.New 0x80000001).toRat = some ((0x80000001 : ℕ) : ℚ))
    ∧ ((SetMode simOS [.number (Number.New 5)] (freshProc ⟨.console, 7, 0, true⟩)).1 = .ok ()
      ∧ ∃ r, (GetMode simOS (SetMode simOS [.number (Number.New 5)]
            (freshProc ⟨.console, 7, 0, true⟩)).2).1 = .ok (Number.New r)
          ∧ r.testBit 1 = false ∧ ∀ i, i ≠ 1 → r.testBit i = Nat.testBit 7 i) :=
  ⟨(C2_set_then_get simOS (freshProc ⟨.console, 7, 0, true⟩)).1 0x80000001
      (Number.New 0x80000001) (by decide) (toRat_New _)
      ⟨by decide, by decide, by decide, by decide⟩,
   (C2_set_then_get simOS (freshProc ⟨.console, 7, 0, true⟩)).2 7 (Number.New 5) (by decide)
      (Or.inl (toRat_New 5)) ⟨by decide, by decide, by decide, by decide⟩⟩

/-- C3: if `GetMode()` returns the number `x`, then `x` is the number of a 32-bit mode `m`
the OS reported, and `x` coerces back to `m`.  `SetMode(x)` called next, when the
handle resolves, makes `SetConsoleMode` its second OS call with exactly `m`; and on
a console that stores `m` and reports it, `SetMode(x)` succeeds and the `GetMode()`
that follows returns `x` again. -/
theorem C3_get_then_set {σ : Type} (W : Win32 σ) (p : Proc σ) (x : Number)
    (hget : (GetMode W p).1 = .ok x) :
    ∃ m, m < 2 ^ 32 ∧ x = Number.New m ∧ x.Uint32Value = m
      ∧ (∃ mode, (W.GetConsoleMode (W.GetStdHandle p.os).1 (W.GetStdHandle p.os).2).1 = some mode
          ∧ m = mode % 2 ^ 32)
      ∧ ((W.GetStdHandle (GetMode W p).2.os).1 ≠ INVALID_HANDLE_VALUE →
          (newCalls (GetMode W p).2 (SetMode W [.number x] (GetMode W p).2).2).take 2
            = [.GetStdHandle, .SetConsoleMode (W.GetStdHandle (GetMode W p).2.os).1 m])
      ∧ (StoresAndReports W (GetMode W p).2.os m →
          (SetMode W [.number x] (GetMode W p).2).1 = .ok ()
          ∧ (GetMode W (SetMode W [.number x] (GetMode W p).2).2).1 = .ok x) := by
  by_cases h : (W.GetStdHandle p.os).1 = INVALID_HANDLE_VALUE
  · rw [GetMode_invalid W p h] at hget
    simp at hget
  · cases hq : (W.GetConsoleMode (W.GetStdHandle p.os).1 (W.GetStdHandle p.os).2).1 with
    | none =>
      rw [GetMode_queryFails W p h hq] at hget
      simp at hget
    | some mode =>
      rw [GetMode_ok W p mode h hq] at hget ⊢
      have hx : x = Number.New (mode % 2 ^ 32) := by
        simpa using hget.symm
      have hlt : mode % 2 ^ 32 < 2 ^ 32 := Nat.mod_lt _ (by norm_num)
      have hu : x.Uint32Value = mode % 2 ^ 32 := by rw [hx]; exact Uint32Value_New _ hlt
      refine ⟨mode % 2 ^ 32, hlt, hx, hu, ⟨mode, rfl, rfl⟩, ?_, ?_⟩
      · intro hv
        have := SetMode_first_calls W x (afterGetConsoleMode W p) hv
        rw [hu] at this
        exact this
      · intro hos
        rw [← hu] at hos
        have hsg := set_then_get W (afterGetConsoleMode W p) x hos
        refine ⟨by rw [hsg.1], ?_⟩
        rw [hsg.2, hu, hx]

/-- C3 on a console of the simulated OS in mode 7: `GetMode()` returns 7, `SetMode(7)`
succeeds, and `GetMode()` returns 7 again. -/
theorem C3_get_then_set_witness :
    (GetMode simOS (freshProc ⟨.console, 7, 0, true⟩)).1 = .ok (Number.New 7)
    ∧ (SetMode simOS [.number (Number.New 7)]
        (GetMode simOS (freshProc ⟨.console, 7, 0, true⟩)).2).1 = .ok ()
    ∧ (GetMode simOS (SetMode simOS [.number (Number.New 7)]
        (GetMode simOS (freshProc ⟨.console, 7, 0, true⟩)).2).2).1 = .ok (Number.New 7) := by
  obtain ⟨m, _, hx, _, _, _, hrt⟩ :=
    C3_get_then_set simOS (freshProc ⟨.console, 7, 0, true⟩) (Number.New 7) (by decide)
  have hm : m = 7 := by simpa [Number.New] using hx.symm
  subst hm
  exact ⟨by decide, hrt ⟨by decide, by decide, by decide, by decide⟩⟩

/-! ## The text of `lastErrorMessage` -/

/-- C10: let the buffer after `FormatMessage` hold the message `m` (no NUL in it), a NUL,
and anything behind it.  The string `lastErrorMessage` returns has the length the
converter reports for that buffer with `cbMultiByte = 0`.  When the converter does
not fail, the string is the UTF-8 bytes of `m` followed by one NUL byte, so its
length is the UTF-8 length of `m` plus one and it is not empty; when the converter
reports 0, the string is empty. -/
theorem C10_lastErrorMessage_bytes {σ : Type} (W : Win32 σ) (p : Proc σ) (m rest : List Nat)
    (hm : ∀ u ∈ m, u ≠ 0)
    (hbuf : msgAfterFormat p.msg (W.FormatMessage (W.GetLastError p.os) MAX_MESSAGE_SIZE p.os).1
              = m ++ 0 :: rest) :
    (lastErrorMessage W p).1.length
      = (WideCharToMultiByte
          (W.convFails (W.FormatMessage (W.GetLastError p.os) MAX_MESSAGE_SIZE p.os).2)
          (m ++ 0 :: rest) [] 0).1
    ∧ (W.convFails (W.FormatMessage (W.GetLastError p.os) MAX_MESSAGE_SIZE p.os).2 = false →
        (lastErrorMessage W p).1 = utf8OfWide none m ++ [0]
        ∧ (lastErrorMessage W p).1.length = (utf8OfWide none m).length + 1
        ∧ (lastErrorMessage W p).1 ≠ [])
    ∧ ((WideCharToMultiByte
          (W.convFails (W.FormatMessage (W.GetLastError p.os) MAX_MESSAGE_SIZE p.os).2)
          (m ++ 0 :: rest) [] 0).1 = 0 →
        (lastErrorMessage W p).1 = []) := by
  rw [lastErrorMessage_str, WideCharToMultiByte_size, hbuf, wcstr_append_nul m rest hm]
  cases W.convFails (W.FormatMessage (W.GetLastError p.os) MAX_MESSAGE_SIZE p.os).2 <;> simp

/-- C10 on the simulated OS with last error 6: the buffer holds "The handle is invalid."
and a line end, 24 wide characters, and the string has 25 bytes; with a failing
converter the string is empty. -/
theorem C10_lastErrorMessage_bytes_witness :
    ((lastErrorMessage simOS (freshProc ⟨.file, 7, 6, true⟩)).1
        = bytes "The handle is invalid.\r\n" ++ [0]
      ∧ (lastErrorMessage simOS (freshProc ⟨.file, 7, 6, true⟩)).1.length = 25)
    ∧ (lastErrorMessage simOSConvFails (freshProc ⟨.file, 7, 6, true⟩)).1 = [] := by
  have h1 := C10_lastErrorMessage_bytes simOS (freshProc ⟨.file, 7, 6, true⟩)
    (bytes "The handle is invalid.\r\n") (List.replicate 999 0) (by decide) rfl
  have h2 := C10_lastErrorMessage_bytes simOSConvFails (freshProc ⟨.file, 7, 6, true⟩)
    (bytes "The handle is invalid.\r\n") (List.replicate 999 0) (by decide) rfl
  refine ⟨⟨?_, ?_⟩, h2.2.2 (by decide)⟩
  · rw [(h1.2.1 (by decide)).1]; decide
  · rw [(h1.2.1 (by decide)).2.1]; decide

/-! ## Standard input that is not a console -/

/-- C7 fails as stated: on the simulated OS with standard input redirected from a file,
`GetStdHandle` returns a handle other than `INVALID_HANDLE_VALUE`, `GetMode` fails
with `ModeQueryError` and `SetMode(7)` fails with `ModeSetError`; neither fails with
`HandleError`. -/
theorem C7_counterexample :
    (simOS.GetStdHandle ⟨.file, 7, 0, true⟩).1 ≠ INVALID_HANDLE_VALUE
    ∧ outcomeKind (GetMode simOS (freshProc ⟨.file, 7, 0, true⟩)).1 = some .ModeQueryError
    ∧ outcomeKind (SetMode simOS [.number (Number.New 7)] (freshProc ⟨.file, 7, 0, true⟩)).1
        = some .ModeSetError
    ∧ outcomeKind (GetMode simOS (freshProc ⟨.file, 7, 0, true⟩)).1 ≠ some .HandleError
    ∧ outcomeKind (SetMode simOS [.number (Number.New 7)] (freshProc ⟨.file, 7, 0, true⟩)).1
        ≠ some .HandleError := by
  decide

/-- C7 amended: `GetMode` and `SetMode` (with a numeric argument) fail with `HandleError`
exactly when `GetStdHandle` returns `INVALID_HANDLE_VALUE`.  When standard input is
not a console but `GetStdHandle` returns a handle, so that the console query and
the console set on that handle fail, `GetMode` fails with `ModeQueryError` and
`SetMode` fails with `ModeSetError`.  The message of every such failure is non-empty. -/
theorem C7_not_a_console {σ : Type} (W : Win32 σ) (p : Proc σ) (x : Number) :
    (outcomeKind (GetMode W p).1 = some .HandleError
        ↔ (W.GetStdHandle p.os).1 = INVALID_HANDLE_VALUE)
    ∧ (outcomeKind (SetMode W [.number x] p).1 = some .HandleError
        ↔ (W.GetStdHandle p.os).1 = INVALID_HANDLE_VALUE)
    ∧ ((W.GetStdHandle p.os).1 ≠ INVALID_HANDLE_VALUE →
        (W.GetConsoleMode (W.GetStdHandle p.os).1 (W.GetStdHandle p.os).2).1 = none →
        (W.SetConsoleMode (W.GetStdHandle p.os).1 x.Uint32Value (W.GetStdHandle p.os).2).1
          = false →
          outcomeKind (GetMode W p).1 = some .ModeQueryError
          ∧ outcomeKind (SetMode W [.number x] p).1 = some .ModeSetError)
    ∧ (∀ e, (GetMode W p).1 = .error e → e.message ≠ [])
    ∧ (∀ e, (SetMode W [.number x] p).1 = .error e → e.message ≠ []) := by
  by_cases h : (W.GetStdHandle p.os).1 = INVALID_HANDLE_VALUE
  · rw [GetMode_invalid W p h, SetMode_invalid W x p h]
    simp [outcomeKind, kindOf_stdin, h, message_New, stdinText_ne_nil]
  · have hg : (outcomeKind (GetMode W p).1 ≠ some .HandleError)
        ∧ (∀ e, (GetMode W p).1 = .error e → e.message ≠ [])
        ∧ ((W.GetConsoleMode (W.GetStdHandle p.os).1 (W.GetStdHandle p.os).2).1 = none →
            outcomeKind (GetMode W p).1 = some .ModeQueryError) := by
      cases hq : (W.GetConsoleMode (W.GetStdHandle p.os).1 (W.GetStdHandle p.os).2).1 with
      | none =>
        rw [GetMode_queryFails W p h hq]
        simp [outcomeKind, kindOf_query, message_New, queryText_ne_nil]
      | some mode =>
        rw [GetMode_ok W p mode h hq]
        simp [outcomeKind]
    have hs : (outcomeKind (SetMode W [.number x] p).1 ≠ some .HandleError)
        ∧ (∀ e, (SetMode W [.number x] p).1 = .error e → e.message ≠ [])
        ∧ ((W.SetConsoleMode (W.GetStdHandle p.os).1 x.Uint32Value
              (W.GetStdHandle p.os).2).1 = false →
            outcomeKind (SetMode W [.number x] p).1 = some .ModeSetError) := by
      cases hq : (W.SetConsoleMode (W.GetStdHandle p.os).1 x.Uint32Value
          (W.GetStdHandle p.os).2).1 with
      | false =>
        rw [SetMode_setFails W x p h hq]
        simp [outcomeKind, kindOf_set, message_New, setText_ne_nil]
      | true =>
        rw [SetMode_ok W x p h hq]
        simp [outcomeKind]
    refine ⟨⟨fun hk => absurd hk hg.1, fun hk => absurd hk h⟩,
      ⟨fun hk => absurd hk hs.1, fun hk => absurd hk h⟩,
      fun _ hq1 hq2 => ⟨hg.2.2 hq1, hs.2.2 hq2⟩, hg.2.1, hs.2.1⟩

/-- C7 amended, on the simulated OS: with standard input redirected from a file the two
calls fail with `ModeQueryError` and `ModeSetError`; with no standard input both
fail with `HandleError`. -/
theorem C7_not_a_console_witness :
    (outcomeKind (GetMode simOS (freshProc ⟨.file, 7, 0, true⟩)).1 = some .ModeQueryError
      ∧ outcomeKind (SetMode simOS [.number (Number.New 7)] (freshProc ⟨.file, 7, 0, true⟩)).1
          = some .ModeSetError)
    ∧ outcomeKind (GetMode simOS (freshProc ⟨.unavailable, 7, 0, true⟩)).1 = some .HandleError
    ∧ outcomeKind (SetMode simOS [.number (Number.New 7)]
        (freshProc ⟨.unavailable, 7, 0, true⟩)).1 = some .HandleError :=
  ⟨(C7_not_a_console simOS (freshProc ⟨.file, 7, 0, true⟩) (Number.New 7)).2.2.1
      (by decide) (by decide) (by decide),
   (C7_not_a_console simOS (freshProc ⟨.unavailable, 7, 0, true⟩) (Number.New 7)).1.2
      (by decide),
   (C7_not_a_console simOS (freshProc ⟨.unavailable, 7, 0, true⟩) (Number.New 7)).2.1.2
      (by decide)⟩

/-! ## Error messages -/

/-- C8: every error `GetMode` throws, and every error `SetMode` throws that is not the
argument `TypeError`, has a non-empty message made of the static description of
the failed step followed by the string `lastErrorMessage` returned at that point:
the description of handle resolution (the same in both functions) when
`GetStdHandle` returned `INVALID_HANDLE_VALUE`, otherwise the description of the
query in `GetMode` and of the set in `SetMode`.  The three descriptions are
non-empty and pairwise different. -/
theorem C8_error_messages {σ : Type} (W : Win32 σ) (p : Proc σ) :
    (∀ e, (GetMode W p).1 = .error e →
      e.message ≠ []
      ∧ (((W.GetStdHandle p.os).1 = INVALID_HANDLE_VALUE
            ∧ e.message = stdinText ++ (lastErrorMessage W (afterGetStdHandle W p)).1)
        ∨ ((W.GetStdHandle p.os).1 ≠ INVALID_HANDLE_VALUE
            ∧ e.message = queryText ++ (lastErrorMessage W (afterGetConsoleMode W p)).1)))
    ∧ (∀ info e, (SetMode W info p).1 = .error e → e.isTypeError = false →
      e.message ≠ []
      ∧ ∃ x, info = [.number x]
        ∧ (((W.GetStdHandle p.os).1 = INVALID_HANDLE_VALUE
              ∧ e.message = stdinText ++ (lastErrorMessage W (afterGetStdHandle W p)).1)
          ∨ ((W.GetStdHandle p.os).1 ≠ INVALID_HANDLE_VALUE
              ∧ e.message = setText
                  ++ (lastErrorMessage W (afterSetConsoleMode W x.Uint32Value p)).1)))
    ∧ stdinText ≠ queryText ∧ stdinText ≠ setText ∧ queryText ≠ setText
    ∧ stdinText ≠ [] ∧ queryText ≠ [] ∧ setText ≠ [] := by
  refine ⟨?_, ?_, by decide, by decide, by decide, by decide, by decide, by decide⟩
  · intro e he
    by_cases h : (W.GetStdHandle p.os).1 = INVALID_HANDLE_VALUE
    · rw [GetMode_invalid W p h] at he
      have he2 : e = Error.New (stdinText ++ (lastErrorMessage W (afterGetStdHandle W p)).1) := by
        simpa using he.symm
      subst he2
      exact ⟨stdinText_append_ne_nil _, Or.inl ⟨h, rfl⟩⟩
    · cases hq : (W.GetConsoleMode (W.GetStdHandle p.os).1 (W.GetStdHandle p.os).2).1 with
      | none =>
        rw [GetMode_queryFails W p h hq] at he
        have he2 : e = Error.New
            (queryText ++ (lastErrorMessage W (afterGetConsoleMode W p)).1) := by
          simpa using he.symm
        subst he2
        exact ⟨queryText_append_ne_nil _, Or.inr ⟨h, rfl⟩⟩
      | some mode =>
        rw [GetMode_ok W p mode h hq] at he
        simp at he
  · intro info e he hty
    have hnum : ∃ x, info = [.number x] := by
      by_contra hne
      have key : (SetMode W info p).1 = .error (TypeError.New numberExpectedText) := by
        match info, hne with
        | [], _ => rfl
        | [.number x], hne => exact absurd ⟨x, rfl⟩ hne
        | [.undefined], _ => rfl
        | [.null], _ => rfl
        | [.boolean _], _ => rfl
        | [.string _], _ => rfl
        | [.object], _ => rfl
        | _ :: _ :: _, _ => rfl
      rw [key] at he
      have he2 : e = TypeError.New numberExpectedText := by simpa using he.symm
      rw [he2] at hty
      simp [TypeError.New] at hty
    obtain ⟨x, rfl⟩ := hnum
    by_cases h : (W.GetStdHandle p.os).1 = INVALID_HANDLE_VALUE
    · rw [SetMode_invalid W x p h] at he
      have he2 : e = Error.New (stdinText ++ (lastErrorMessage W (afterGetStdHandle W p)).1) := by
        simpa using he.symm
      subst he2
      exact ⟨stdinText_append_ne_nil _, x, rfl, Or.inl ⟨h, rfl⟩⟩
    · cases hq : (W.SetConsoleMode (W.GetStdHandle p.os).1 x.Uint32Value
          (W.GetStdHandle p.os).2).1 with
      | false =>
        rw [SetMode_setFails W x p h hq] at he
        have he2 : e = Error.New
            (setText ++ (lastErrorMessage W (afterSetConsoleMode W x.Uint32Value p)).1) := by
          simpa using he.symm
        subst he2
        exact ⟨setText_append_ne_nil _, x, rfl, Or.inr ⟨h, rfl⟩⟩
      | true =>
        rw [SetMode_ok W x p h hq] at he
        simp at he

/-- C8 on the simulated OS with standard input redirected from a file: the messages of
`GetMode` and of `SetMode(7)` are the description of the step followed by the text
for `ERROR_INVALID_HANDLE`. -/
theorem C8_error_messages_witness :
    (Error.New (queryText ++ (bytes "The handle is invalid.\r\n" ++ [0]))).message ≠ []
    ∧ (Error.New (setText ++ (bytes "The handle is invalid.\r\n" ++ [0]))).message ≠ [] :=
  ⟨((C8_error_messages simOS (freshProc ⟨.file, 7, 0, true⟩)).1
      (Error.New (queryText ++ (bytes "The handle is invalid.\r\n" ++ [0]))) (by decide)).1,
   ((C8_error_messages simOS (freshProc ⟨.file, 7, 0, true⟩)).2.1 [.number (Number.New 7)]
      (Error.New (setText ++ (bytes "The handle is invalid.\r\n" ++ [0])))
      (by decide) rfl).1⟩

/-! ## Dependence on earlier calls -/

/-- C9 fails on the code.  On the simulated OS let standard input be redirected from a
file and the system message table be unreadable, so that `FormatMessage` fails.
In a process that has made no call, `GetMode` fails with the query description
followed by a lone NUL byte.  In a process whose earlier failing `GetMode`
formatted "The handle is invalid." (the table was readable then), `GetMode` in the
same OS state fails with the query description followed by that earlier text:
the `static` buffer of `lastErrorMessage` kept it.  The two messages differ, while
the OS states the two calls start from and end in are the same. -/
theorem C9_stale_message :
    (GetMode simOS (freshProc ⟨.file, 7, 6, false⟩)).1
      = .error (Error.New (queryText ++ [0]))
    ∧ (GetMode simOS { (GetMode simOS (freshProc ⟨.file, 7, 6, true⟩)).2 with
          os := ⟨.file, 7, 6, false⟩ }).1
      = .error (Error.New (queryText ++ bytes "The handle is invalid.\r\n" ++ [0]))
    ∧ (GetMode simOS (freshProc ⟨.file, 7, 6, false⟩)).1
      ≠ (GetMode simOS { (GetMode simOS (freshProc ⟨.file, 7, 6, true⟩)).2 with
          os := ⟨.file, 7, 6, false⟩ }).1
    ∧ (GetMode simOS (freshProc ⟨.file, 7, 6, false⟩)).2.os
      = (GetMode simOS { (GetMode simOS (freshProc ⟨.file, 7, 6, true⟩)).2 with
          os := ⟨.file, 7, 6, false⟩ }).2.os := by
  decide

end FixWin
